import Mathlib

/-!
Shallow embedding of the nuclide debugger protocol translator core:
the `V8Protocol` framed transport (src/unnamed/part_001) and the
`VsDebugSessionTranslator` (src/modules/nuclide-debugger-common/
VsDebugSessionTranslator.js).  Adapter round-trips are modelled by
passing the adapter's response (or an oracle function) as an explicit
argument; client-visible effects are returned as values.
-/

namespace Nuclide

/-! ## V8Protocol framed transport (src/unnamed/part_001) -/

/-- The header terminator `TWO_CRLF = '\r\n\r\n'` as a character list. -/
def twoCrlfChars : List Char := '\r' :: '\n' :: '\r' :: '\n' :: []

/-- The literal text matched by the `Content-Length` regex prefix. -/
def clHeaderChars : List Char := "Content-Length: ".toList

/-- Index of the first occurrence of `pat` in `s` (JS `String.indexOf`). -/
def findIndexOfSub (pat : List Char) : List Char → Option Nat
  | [] => if pat.isPrefixOf ([] : List Char) then some 0 else none
  | c :: rest =>
    if pat.isPrefixOf (c :: rest) then some 0
    else
      match findIndexOfSub pat rest with
      | some n => some (n + 1)
      | none => none

/-- `Number` applied to a string of decimal digits. -/
def digitsToNat (ds : List Char) : Nat :=
  ds.foldl (fun a c => a * 10 + (c.toNat - 48)) 0

/-- The JS regex `/Content-Length: (\d+)/.exec(s)`: the parsed number of the
first occurrence of `Content-Length: ` that is followed by at least one
digit, searching the whole buffer string (the source does not restrict the
search to the header region before the terminator). -/
def contentLengthMatch : List Char → Option Nat
  | [] => none
  | c :: rest =>
    if clHeaderChars.isPrefixOf (c :: rest) then
      let ds := ((c :: rest).drop clHeaderChars.length).takeWhile Char.isDigit
      if ds.isEmpty then contentLengthMatch rest
      else some (digitsToNat ds)
    else contentLengthMatch rest

/-- Decoder state of `V8Protocol`: `_contentLength` and `_rawData`.
(`_contentLength` is initialized to `-1` in the constructor.) -/
def v8InitialContentLength : Int := -1

/-- One run of the `while (true)` loop of `V8Protocol._handleData`, with
explicit fuel (each productive iteration either consumes buffer bytes or
a header, so `rawData.length + 1` fuel is always enough).  Returns the new
`(contentLength, rawData)` state and the list of bodies passed to
`_dispatch` (empty bodies are skipped, exactly as in the source). -/
def handleDataLoop : Nat → Int × List Char → (Int × List Char) × List (List Char)
  | 0, st => (st, [])
  | fuel + 1, (contentLength, rawData) =>
    if 0 ≤ contentLength then
      if contentLength.toNat ≤ rawData.length then
        let message := rawData.take contentLength.toNat
        let rest := rawData.drop contentLength.toNat
        let r := handleDataLoop fuel (-1, rest)
        (r.1, (if 0 < message.length then [message] else []) ++ r.2)
      else ((contentLength, rawData), [])
    else
      match findIndexOfSub twoCrlfChars rawData with
      | some idx =>
        match contentLengthMatch rawData with
        | some n =>
          handleDataLoop fuel ((n : Int), rawData.drop (idx + twoCrlfChars.length))
        | none => ((contentLength, rawData), [])
      | none => ((contentLength, rawData), [])

/-- `V8Protocol._handleData`. -/
def handleData (st : Int × List Char) : (Int × List Char) × List (List Char) :=
  handleDataLoop (st.2.length + 1) st

/-- Server errors are raised only inside `_dispatch` (its `catch` block calls
`onServerError`); `d` models the outcome of dispatching one body. -/
def serverErrorsOfDispatch (d : List Char → Option String) (bodies : List (List Char)) :
    List String :=
  bodies.filterMap d

/-- An outgoing message stamped by `V8Protocol._sendMessage`. -/
structure OutMessage where
  typ : String
  seq : Nat
  deriving Repr, DecidableEq

/-- `V8Protocol._sendMessage`: stamp `message.seq = this._sequence++`. -/
def sendMessage (sequence : Nat) (typ : String) : OutMessage × Nat :=
  ({ typ := typ, seq := sequence }, sequence + 1)

/-- Sending a series of messages through `_sendMessage`, threading the
`_sequence` counter. -/
def sendAll (sequence : Nat) (typs : List String) : List OutMessage × Nat :=
  match typs with
  | [] => ([], sequence)
  | t :: rest =>
    let m := sendMessage sequence t
    let r := sendAll m.2 rest
    (m.1 :: r.1, r.2)

/-- `V8Protocol`'s constructor sets `this._sequence = 1`. -/
def v8InitialSequence : Nat := 1

/-! ## VsDebugSessionTranslator data model -/

/-- A record of the breakpoint ledger (`TranslatorBreakpoint`). -/
structure TranslatorBreakpoint where
  breakpointId : Option String
  path : String
  lineNumber : Int
  condition : String
  hitCount : Int
  resolved : Bool
  deriving Repr, DecidableEq

/-- The subset of a `DebugProtocol.Breakpoint` read by the translator. -/
structure VsBreakpoint where
  id : Option Int
  verified : Bool
  line : Option Int
  deriving Repr, DecidableEq

/-- Thread state: `'running' | 'paused'`. -/
inductive ThreadState where
  | running
  | paused
  deriving Repr, DecidableEq

/-- A client `Location` (`nuclideDebuggerLocation`). -/
structure NuclideLocation where
  scriptId : String
  lineNumber : Int
  columnNumber : Int
  deriving Repr, DecidableEq

/-- A scope descriptor as produced by `_getScopesForFrame`. -/
structure NuclideScope where
  type : String
  name : String
  objectType : String
  objectDescription : String
  objectId : String
  deriving Repr, DecidableEq

/-- A translated client call frame (`NuclideDebugProtocol.CallFrame`). -/
structure CallFrame where
  callFrameId : String
  functionName : String
  location : NuclideLocation
  hasSource : Bool
  scopeChain : List NuclideScope
  deriving Repr, DecidableEq

/-- A `ThreadInfo` entry of `_threadsById`.  `callFrames` and `stopReason`
are absent (`undefined`) on entries freshly created by
`_updateThreadsState`. -/
structure ThreadInfo where
  state : ThreadState
  callFrames : Option (List CallFrame)
  callStackLoaded : Bool
  stopReason : Option String
  deriving Repr, DecidableEq

/-- The translator session state touched by the embedded operations. -/
structure TranslatorState where
  breakpoints : List TranslatorBreakpoint
  lastBreakpointId : Nat
  configDoneSent : Bool
  exceptionFilters : List String
  pausedThreadId : Option Int
  pausedThreadIdPrevious : Option Int
  threadsById : List (Int × ThreadInfo)
  deriving Repr, DecidableEq

/-- The constructor's initial session state (`_pausedThreadIdPrevious` is
left `undefined` by the constructor; both `null` and `undefined` behave as
"no value" under the `!= null` checks, so it is modelled as `none`). -/
def translatorInitialState : TranslatorState :=
  { breakpoints := []
    lastBreakpointId := 0
    configDoneSent := false
    exceptionFilters := []
    pausedThreadId := none
    pausedThreadIdPrevious := none
    threadsById := [] }

/-- Lookup in the insertion-ordered map `_threadsById`. -/
def assocGet (m : List (Int × ThreadInfo)) (k : Int) : Option ThreadInfo :=
  match m with
  | [] => none
  | (k', v) :: rest => if k' = k then some v else assocGet rest k

/-- `Map.set`: replace in place when the key exists (preserving insertion
order), otherwise append. -/
def assocSet (m : List (Int × ThreadInfo)) (k : Int) (v : ThreadInfo) :
    List (Int × ThreadInfo) :=
  match m with
  | [] => [(k, v)]
  | (k', v') :: rest =>
    if k' = k then (k, v) :: rest else (k', v') :: assocSet rest k v

/-- JS strict equality `===` between `this._pausedThreadId` (a number or
`null`) and an optional event thread id (a number or `undefined`): two
absent values never compare equal (`null === undefined` is false), numbers
compare numerically. -/
def jsStrictEqOpt (a b : Option Int) : Bool :=
  match a, b with
  | some x, some y => x == y
  | _, _ => false

/-- `_updatePausedThreadId`. -/
def updatePausedThreadId (st : TranslatorState) (newPausedThreadId : Option Int) :
    TranslatorState :=
  let st' :=
    if st.pausedThreadId ≠ none then
      { st with pausedThreadIdPrevious := st.pausedThreadId }
    else st
  { st' with pausedThreadId := newPausedThreadId }

/-- A client response: `getEmptyResponse` / a result / `getErrorResponse`. -/
inductive ClientResponse where
  | empty (id : Nat)
  | setBreakpointByUrl (id : Nat) (breakpointId : String)
      (locations : List NuclideLocation) (resolved : Bool)
  | evaluate (id : Nat) (resultType : String) (value : Option String)
      (description : Option String) (objectId : Option String)
      (wasThrown : Bool) (exceptionDetails : Option String)
  | error (id : Nat) (message : String)
  deriving Repr, DecidableEq

/-- Whether a response is an error response (`{id, error:{message}}`). -/
def ClientResponse.isError : ClientResponse → Bool
  | .error _ _ => true
  | _ => false

/-! ## Breakpoint ledger operations -/

/-- A `Debugger.setBreakpointByUrl` command's fields. -/
structure SetBpCommand where
  id : Nat
  url : String
  lineNumber : Int
  condition : Option String
  deriving Repr, DecidableEq

/-- Modelled from the spec: `uriToPath`/`decodeURIComponent` (helpers.js and
the URI mapping are not under src/); source paths are opaque string
identifiers compared by equality, so the mapping is the identity here. -/
def uriToPath (url : String) : String := url

/-- Client line to adapter line at the `setBreakpointByUrl` boundary:
`c.params.lineNumber + 1` in `_setBulkBreakpoints`. -/
def setBreakpointLineToAdapter (clientLine : Int) : Int := clientLine + 1

/-- Adapter line back to client line in `setBreakpointByUrl` responses and
breakpoint events: `lineNumber - 1`. -/
def breakpointLineToClient (adapterLine : Int) : Int := adapterLine - 1

/-- `_getBreakpointsForFilePath`. -/
def getBreakpointsForFilePath (breakpoints : List TranslatorBreakpoint)
    (path : String) : List TranslatorBreakpoint :=
  breakpoints.filter (fun bp => bp.path == path)

/-- `_tryUpdateBreakpoint`.  The source guard compares the parsed line with
`breakpoint.line`, a field that does not exist on `TranslatorBreakpoint`
(the field is `lineNumber`), so the guard `lineNumber !== breakpoint.line`
is always true and the stored line is overwritten whenever the adapter
reports one. -/
def tryUpdateBreakpoint (bp : TranslatorBreakpoint) (vs : VsBreakpoint) :
    TranslatorBreakpoint :=
  let bp1 := if !bp.resolved && vs.verified then { bp with resolved := true } else bp
  match vs.line with
  | some l => { bp1 with lineNumber := l }
  | none => bp1

/-- The positional `forEach` of `_syncBreakpointsForFilePath`: assign ids to
records lacking one (`String(vsBreakpoint.id == null ? this._nextBreakpointId()
: vsBreakpoint.id)`, where `_nextBreakpointId` is `++this._lastBreakpointId`)
and apply `_tryUpdateBreakpoint`; threads the `_lastBreakpointId` counter. -/
def assignAndUpdate (lastId : Nat) :
    List (TranslatorBreakpoint × VsBreakpoint) → List TranslatorBreakpoint × Nat
  | [] => ([], lastId)
  | (bp, vs) :: rest =>
    let step : TranslatorBreakpoint × Nat :=
      if bp.breakpointId = none then
        match vs.id with
        | some i => ({ bp with breakpointId := some (toString i) }, lastId)
        | none => ({ bp with breakpointId := some (toString (lastId + 1)) }, lastId + 1)
      else (bp, lastId)
    let r := assignAndUpdate step.2 rest
    (tryUpdateBreakpoint step.1 vs :: r.1, r.2)

/-- The `setBreakpoints` request arguments sent by
`_syncBreakpointsForFilePath` (`lines` plus `(line, condition)` pairs). -/
structure SetBreakpointsCall where
  path : String
  lines : List Int
  breakpoints : List (Int × String)
  deriving Repr, DecidableEq

/-- Arguments of the `setBreakpoints` request for a file sync. -/
def setBreakpointsCallOf (path : String) (bps : List TranslatorBreakpoint) :
    SetBreakpointsCall :=
  { path := path
    lines := bps.map (fun bp => bp.lineNumber)
    breakpoints := bps.map (fun bp => (bp.lineNumber, bp.condition)) }

/-- Response handling of `_syncBreakpointsForFilePath`: a count mismatch
throws; otherwise the response breakpoints are zipped positionally with the
synced records. -/
def syncBreakpointsResponse (lastId : Nat) (bps : List TranslatorBreakpoint)
    (resp : List VsBreakpoint) : Except String (List TranslatorBreakpoint × Nat) :=
  if resp.length ≠ bps.length then
    .error ("Failed to set breakpoints - count mismatch!" ++
      s!" {resp.length} vs. {bps.length}")
  else
    .ok (assignAndUpdate lastId (bps.zip resp))

/-- The staging phase of `_setBulkBreakpoints` for one URL group: push a new
record per command onto the ledger, and build the list passed to
`_syncBreakpointsForFilePath` — the new records followed by copies of the
pre-existing records of the file whose line is not among the newly staged
lines.  Returns `(new ledger, sync list, new records)`. -/
def stageGroup (breakpoints : List TranslatorBreakpoint) (path : String)
    (cmds : List SetBpCommand) :
    List TranslatorBreakpoint × List TranslatorBreakpoint × List TranslatorBreakpoint :=
  let existing := getBreakpointsForFilePath breakpoints path
  let newRecords := cmds.map (fun c =>
    { breakpointId := none
      path := path
      lineNumber := setBreakpointLineToAdapter c.lineNumber
      condition := c.condition.getD ""
      resolved := false
      hitCount := 0 : TranslatorBreakpoint })
  let breakOnLineNumbers := newRecords.map (fun bp => bp.lineNumber)
  let syncList := newRecords ++
    existing.filter (fun bp => !(breakOnLineNumbers.contains bp.lineNumber))
  (breakpoints ++ newRecords, syncList, newRecords)

/-- `_setBulkBreakpoints` for one URL group (`Debugger.setBreakpointByUrl`
commands sharing a url), given the adapter's `setBreakpoints` response.
The new records are appended to the ledger before the adapter round-trip;
on a count mismatch the staged records stay in the ledger with `null` ids
(the error is converted to error responses by the caller).  On success the
positionally updated new records replace the staged ones (they are the same
objects in the source; updates to the copies of pre-existing records are
dropped), and each command is answered with
`{breakpointId, locations:[(path, lineNumber-1, 0)], resolved}`. -/
def setBulkBreakpointsGroup (st : TranslatorState) (path : String)
    (cmds : List SetBpCommand) (resp : List VsBreakpoint) :
    TranslatorState × SetBreakpointsCall × Except String (List ClientResponse) :=
  let staged := stageGroup st.breakpoints path cmds
  let syncList := staged.2.1
  let newRecords := staged.2.2
  let call := setBreakpointsCallOf path syncList
  match syncBreakpointsResponse st.lastBreakpointId syncList resp with
  | .error e => ({ st with breakpoints := staged.1 }, call, .error e)
  | .ok (updated, lastId') =>
    let updatedNew := updated.take newRecords.length
    let responses := (cmds.zip updatedNew).map (fun cu =>
      ClientResponse.setBreakpointByUrl cu.1.id (cu.2.breakpointId.getD "")
        [{ scriptId := path
           lineNumber := breakpointLineToClient cu.2.lineNumber
           columnNumber := 0 }]
        cu.2.resolved)
    ({ st with breakpoints := st.breakpoints ++ updatedNew, lastBreakpointId := lastId' },
      call, .ok responses)

/-- The steady-state `Debugger.setBreakpointByUrl` handler: a single command
is passed to `_setBulkBreakpoints` (its one-element batch forms a single URL
group); a thrown error becomes an error response. -/
def handleSetBreakpointByUrlCommand (st : TranslatorState) (cmd : SetBpCommand)
    (resp : List VsBreakpoint) :
    TranslatorState × SetBreakpointsCall × List ClientResponse :=
  let r := setBulkBreakpointsGroup st (uriToPath cmd.url) [cmd] resp
  match r.2.2 with
  | .ok responses => (r.1, r.2.1, responses)
  | .error e => (r.1, r.2.1, [ClientResponse.error cmd.id e])

/-- `_removeBreakpoint`, given the adapter's `setBreakpoints` response for
the re-sync.  An unknown id is logged and ignored: no adapter call, ledger
unchanged.  Otherwise the first matching record is spliced out, the file's
remaining records (all records of the path except those carrying the id)
are re-synced, and a count mismatch surfaces as an error after the call. -/
def removeBreakpoint (st : TranslatorState) (breakpointId : String)
    (resp : List VsBreakpoint) :
    TranslatorState × List SetBreakpointsCall × Option String :=
  match st.breakpoints.find? (fun bp => bp.breakpointId == some breakpointId) with
  | none => (st, [], none)
  | some found =>
    let remaining := (getBreakpointsForFilePath st.breakpoints found.path).filter
      (fun bp => !(bp.breakpointId == some breakpointId))
    let st1 := { st with
      breakpoints := st.breakpoints.eraseP (fun bp => bp.breakpointId == some breakpointId) }
    let call := setBreakpointsCallOf found.path remaining
    match syncBreakpointsResponse st1.lastBreakpointId remaining resp with
    | .error e => (st1, [call], some e)
    | .ok (_, lastId') => ({ st1 with lastBreakpointId := lastId' }, [call], none)

/-- The `Debugger.removeBreakpoint` handler (`catchCommandError` wrapped):
success yields an empty response, a thrown error an error response. -/
def handleRemoveBreakpointCommand (st : TranslatorState) (cmdId : Nat)
    (breakpointId : String) (resp : List VsBreakpoint) :
    TranslatorState × List SetBreakpointsCall × ClientResponse :=
  let r := removeBreakpoint st breakpointId resp
  match r.2.2 with
  | none => (r.1, r.2.1, ClientResponse.empty cmdId)
  | some e => (r.1, r.2.1, ClientResponse.error cmdId e)

/-! ## Thread bookkeeping and command handlers -/

/-- `_updateThreadsState`: moving a thread to `running` (or creating a
missing entry) resets `callFrames`, `stopReason` and `callStackLoaded`. -/
def updateThreadsState (st : TranslatorState) (threadIds : List Int)
    (state : ThreadState) : TranslatorState :=
  threadIds.foldl (fun st tid =>
    let fresh : ThreadInfo :=
      { state := state, callFrames := none, callStackLoaded := false, stopReason := none }
    match assocGet st.threadsById tid with
    | none => { st with threadsById := assocSet st.threadsById tid fresh }
    | some info =>
      if state = ThreadState.running then
        { st with threadsById := assocSet st.threadsById tid fresh }
      else
        { st with threadsById := assocSet st.threadsById tid { info with state := state } }) st

/-- JS `x || -1` applied to `Array.from(this._threadsById.keys())[0]`:
an absent first key and the (falsy) first key `0` both fall through
to `-1`. -/
def jsOrMinus1 (x : Option Int) : Int :=
  match x with
  | some v => if v == 0 then -1 else v
  | none => -1

/-- The `Debugger.pause` handler: pick the thread id to pause
(`this._pausedThreadId != null ? this._pausedThreadId :
Array.from(this._threadsById.keys())[0] || -1`), clear the active paused
thread, then send the adapter `pause` request.  Returns the state at the
time of the adapter call, the `threadId` argument of that call, and the
client response. -/
def handlePauseCommand (st : TranslatorState) (cmdId : Nat) :
    TranslatorState × Int × ClientResponse :=
  let pausedThreadId :=
    match st.pausedThreadId with
    | some t => t
    | none => jsOrMinus1 ((st.threadsById.map Prod.fst).head?)
  let st' := updatePausedThreadId st none
  (st', pausedThreadId, ClientResponse.empty cmdId)

/-- The `Debugger.selectThread` handler. -/
def handleSelectThreadCommand (st : TranslatorState) (cmdId : Nat) (threadId : Int) :
    TranslatorState × ClientResponse :=
  (updatePausedThreadId st (some threadId), ClientResponse.empty cmdId)

/-- The client `Location` argument of `Debugger.continueToLocation`
(`columnNumber` is a plain number in the client protocol; `0` is its
falsy value). -/
structure ContinueLocation where
  scriptId : String
  lineNumber : Int
  columnNumber : Int
  threadId : Option Int
  deriving Repr, DecidableEq

/-- The arguments of the adapter `continueToLocation` request. -/
structure ContinueToLocationArgs where
  column : Int
  line : Int
  sourcePath : String
  threadId : Option Int
  deriving Repr, DecidableEq

/-- `_continueToLocation`: `column: columnNumber || 1`, `line: lineNumber + 1`
(the column is passed through unconverted; only the falsy column `0`
defaults to `1`). -/
def continueToLocationArgs (location : ContinueLocation) : ContinueToLocationArgs :=
  { column := if location.columnNumber == 0 then 1 else location.columnNumber
    line := location.lineNumber + 1
    sourcePath := location.scriptId
    threadId := location.threadId }

/-- The adapter `evaluate` response body fields read by the translator. -/
structure EvaluateBody where
  type : String
  result : String
  variablesReference : Int
  deriving Repr, DecidableEq

/-- `_evaluateOnCallFrame` (also used by `Runtime.evaluate`): the adapter
outcome (success body, or the rejection's error message) is always mapped
to an `EvaluateResponse`; a failed adapter request yields
`result.type = 'undefined'`, `wasThrown = true` and the error message as
`exceptionDetails`. -/
def evaluateOnCallFrame (outcome : Except String EvaluateBody) (cmdId : Nat) :
    ClientResponse :=
  match outcome with
  | .ok body =>
    ClientResponse.evaluate cmdId body.type (some body.result) (some body.result)
      (if 0 < body.variablesReference then some (toString body.variablesReference) else none)
      false none
  | .error msg =>
    ClientResponse.evaluate cmdId "undefined" none none none true (some msg)

/-! ## Stop-event translation -/

/-- The fields of an adapter `stopped` event body read by the translator
(`threadId` may be absent, `allThreadsStopped` may be absent or false). -/
structure StopEventBody where
  threadId : Option Int
  reason : String
  allThreadsStopped : Option Bool
  deriving Repr, DecidableEq

/-- Modelled from the spec: `VsAdapterTypes.PYTHON` (constants.js is not
under src/); the adapter-kind constant naming the Python adapter. -/
def pythonAdapterType : String := "python"

/-- The `allThreadsStopped` value after the Python compatibility workaround
(`user request` stops from the Python adapter behave as all-threads
stopped). -/
def effectiveAllThreadsStopped (adapterType : String) (body : StopEventBody) : Bool :=
  if adapterType == pythonAdapterType && body.reason == "user request" then true
  else body.allThreadsStopped == some true

/-- The `stoppedThreadIds` computation of the stop-event handler: the
event's thread id when non-negative, then — under `allThreadsStopped` —
every known thread distinct from it that is not already paused, in map
order. -/
def stoppedThreadIdsOf (st : TranslatorState) (adapterType : String)
    (body : StopEventBody) : List Int :=
  let base :=
    match body.threadId with
    | some t => if 0 ≤ t then [t] else []
    | none => []
  let extra :=
    if effectiveAllThreadsStopped adapterType body then
      (st.threadsById.map Prod.fst).filter (fun id =>
        !(body.threadId == some id) &&
          match assocGet st.threadsById id with
          | some info => info.state ≠ ThreadState.paused
          | none => false)
    else []
  base ++ extra

/-- The active-thread selection of the stop-event handler: if no thread is
active and some thread stopped, the first stopped id becomes active. -/
def stopEventSelectActive (st : TranslatorState) (ids : List Int) : TranslatorState :=
  match ids with
  | [] => st
  | i :: _ => if st.pausedThreadId = none then updatePausedThreadId st (some i) else st

/-- The `levels` argument passed to `_getTranslatedCallFramesForThread` for
one stopped thread: the source ternary compares `this._pausedThreadId` with
the **event's** `threadId` (not with the thread `id` being fetched), so the
choice does not depend on `id`. -/
def stopFrameFetchLevels (st : TranslatorState) (eventThreadId : Option Int)
    (id : Int) : Option Int :=
  if jsStrictEqOpt st.pausedThreadId eventThreadId then none else some 1

/-- The paging options of the `stackTrace` request built by
`_getTranslatedCallFramesForThread`: `levels` (with `startFrame 0`) is sent
only when a levels limit was requested and the adapter reports
`supportsDelayedStackTraceLoading`. -/
def stackTraceOptions (supportsDelayedStackTraceLoading : Bool)
    (levels : Option Int) : Option (Int × Int) :=
  match levels with
  | some l => if supportsDelayedStackTraceLoading then some (l, 0) else none
  | none => none

/-- The `stackTrace` options used for one stopped thread of a stop event. -/
def stopFetchOptions (supportsDelayedStackTraceLoading : Bool)
    (st : TranslatorState) (eventThreadId : Option Int) (id : Int) :
    Option (Int × Int) :=
  stackTraceOptions supportsDelayedStackTraceLoading
    (stopFrameFetchLevels st eventThreadId id)

/-- A client `Debugger.paused` event payload. -/
structure PausedEvent where
  callFrames : List CallFrame
  reason : String
  stopThreadId : Int
  threadSwitchMessage : Option String
  deriving Repr, DecidableEq

/-- The thread-switch banner: non-null exactly when a previous active
thread exists, a current active thread exists, and they differ. -/
def threadSwitchMessageOf (st : TranslatorState) : Option String :=
  match st.pausedThreadIdPrevious, st.pausedThreadId with
  | some p, some n =>
    if p ≠ n then some s!"Active thread switched from thread #{p} to thread #{n}"
    else none
  | _, _ => none

/-- The per-thread `PausedEvent`s built for a stop event; `frames` is the
result of `_getTranslatedCallFramesForThread` for a thread id and a levels
argument (failures already yield `[]` inside that function). -/
def buildPausedEvents (st : TranslatorState) (body : StopEventBody)
    (frames : Int → Option Int → List CallFrame) (ids : List Int) :
    List PausedEvent :=
  ids.map (fun id =>
    { callFrames := frames id (stopFrameFetchLevels st body.threadId id)
      reason := body.reason
      stopThreadId := id
      threadSwitchMessage := threadSwitchMessageOf st })

/-- The subscriber's first loop: mark each stopped thread paused, store its
frames, and set `callStackLoaded` only for the active thread. -/
def applyPausedEvents (st : TranslatorState) (evs : List PausedEvent) :
    TranslatorState :=
  evs.foldl (fun st ev =>
    if 0 ≤ ev.stopThreadId then
      { st with
          threadsById := assocSet st.threadsById ev.stopThreadId
            ({ state := ThreadState.paused
               callFrames := some ev.callFrames
               stopReason := some ev.reason
               callStackLoaded := jsStrictEqOpt st.pausedThreadId (some ev.stopThreadId) }) }
    else st) st

/-- A per-thread summary of `_getThreadsUpdatedEvent`. -/
structure ThreadSummary where
  id : Int
  name : String
  description : String
  address : String
  location : NuclideLocation
  stopReason : String
  hasSource : Bool
  deriving Repr, DecidableEq

/-- A client `Debugger.threadsUpdated` payload (`owningProcessId` is the
constant `-1`; `stopThreadId` is only set by the stop-event handler). -/
structure ThreadsUpdatedEvent where
  owningProcessId : Int
  stopThreadId : Option Int
  threads : List ThreadSummary
  deriving Repr, DecidableEq

/-- `_getThreadsUpdatedEvent`. -/
def getThreadsUpdatedEvent (st : TranslatorState) : ThreadsUpdatedEvent :=
  { owningProcessId := -1
    stopThreadId := none
    threads := st.threadsById.map (fun kv =>
      let id := kv.1
      let info := kv.2
      let top := (info.callFrames.getD []).head?
      let threadName := s!"Thread {id}"
      match top with
      | none =>
        { id := id, name := threadName, description := threadName, address := ""
          location := { scriptId := "N/A", lineNumber := 0, columnNumber := 0 }
          stopReason := info.stopReason.getD "running", hasSource := false }
      | some frame =>
        { id := id, name := threadName, description := threadName
          address := frame.functionName
          location := frame.location
          stopReason := info.stopReason.getD "running"
          hasSource := frame.hasSource }) }

/-- A client event emitted by the stop-event subscriber. -/
inductive ClientMessage where
  | paused (ev : PausedEvent)
  | threadsUpdated (ev : ThreadsUpdatedEvent)
  | resumed
  deriving Repr, DecidableEq

/-- Whether a client message is a `Debugger.paused` event. -/
def ClientMessage.isPaused : ClientMessage → Bool
  | .paused _ => true
  | _ => false

/-- The messages emitted by the stop-event subscriber: at most one
`Debugger.paused` — the synthetic Async-Break event when no thread was
expanded, otherwise the first thread's event only when it is the active
thread — followed by one `Debugger.threadsUpdated`. -/
def stopEventMessages (st : TranslatorState) (evs : List PausedEvent) :
    List ClientMessage :=
  let pausedMsg : Option PausedEvent :=
    match evs with
    | [] =>
      some { callFrames := [], reason := "Async-Break", stopThreadId := -1
             threadSwitchMessage := none }
    | e :: _ =>
      if jsStrictEqOpt st.pausedThreadId (some e.stopThreadId) then some e else none
  (match pausedMsg with
   | some e => [ClientMessage.paused e]
   | none => []) ++
    [ClientMessage.threadsUpdated
      { getThreadsUpdatedEvent st with stopThreadId := some (st.pausedThreadId.getD (-1)) }]

/-- The complete processing of one adapter `stopped` event, in the
run-to-completion order of the source: expand `stoppedThreadIds`, select
the active thread, then — unless a matching `continued` event interrupted
the stack fetches (`takeUntil`) — build the per-thread paused events,
update the thread registry, and emit the client messages. -/
def processStopEvent (st : TranslatorState) (adapterType : String)
    (body : StopEventBody) (interrupted : Bool)
    (frames : Int → Option Int → List CallFrame) :
    TranslatorState × List ClientMessage :=
  let ids := stoppedThreadIdsOf st adapterType body
  let st1 := stopEventSelectActive st ids
  if interrupted then (st1, [])
  else
    let evs := buildPausedEvents st1 body frames ids
    let st2 := applyPausedEvents st1 evs
    (st2, stopEventMessages st2 evs)

/-! ## Stack-frame translation -/

/-- The `source` of an adapter stack frame (`path` may be absent). -/
structure VsSource where
  path : Option String
  deriving Repr, DecidableEq

/-- The fields of an adapter `StackFrame` read by the translator. -/
structure VsStackFrame where
  id : Int
  name : String
  source : Option VsSource
  line : Int
  column : Int
  deriving Repr, DecidableEq

/-- An adapter `Scope` as read by `_getScopesForFrame`. -/
structure VsScope where
  name : String
  variablesReference : Int
  deriving Repr, DecidableEq

/-- The scope mapping of `_getScopesForFrame`. -/
def translateScope (s : VsScope) : NuclideScope :=
  { type := s.name
    name := s.name
    objectType := "object"
    objectDescription := s.name
    objectId := toString s.variablesReference }

/-- The frame mapping of `_getTranslatedCallFramesForThread`: the location
is `(source path or 'N/A', line - 1, column - 1)`; `scopeChain` is the
awaited result of `_getScopesForFrame`. -/
def translateStackFrame (frame : VsStackFrame) (scopes : List VsScope) : CallFrame :=
  let scriptId :=
    match frame.source with
    | some s =>
      match s.path with
      | some p => p
      | none => "N/A"
    | none => "N/A"
  { callFrameId := toString frame.id
    functionName := frame.name
    location :=
      { scriptId := scriptId
        lineNumber := frame.line - 1
        columnNumber := frame.column - 1 }
    hasSource := frame.source.isSome
    scopeChain := scopes.map translateScope }

/-! ## Active-thread traces (for the `pausedThreadIdPrevious` invariant) -/

/-- A session's sequence of `_updatePausedThreadId` calls, replayed over a
state. -/
def runPausedThreadUpdates (st : TranslatorState) (updates : List (Option Int)) :
    TranslatorState :=
  updates.foldl updatePausedThreadId st

/-- The distinct thread ids ever selected as the active paused thread in a
sequence of `_updatePausedThreadId` calls. -/
def distinctActives (updates : List (Option Int)) : List Int :=
  (updates.filterMap id).dedup

/-- Whether some `_updatePausedThreadId` call in the trace happens while a
thread is already active. -/
def updateWhileActive (st : TranslatorState) : List (Option Int) → Bool
  | [] => false
  | u :: rest =>
    st.pausedThreadId != none || updateWhileActive (updatePausedThreadId st u) rest

/-! ## Concrete scenario inputs -/

/-- Records of the ledger at `(path, line)`. -/
def countBpAt (bps : List TranslatorBreakpoint) (path : String) (line : Int) : Nat :=
  (bps.filter (fun bp => bp.path == path && bp.lineNumber == line)).length

/-- First `Debugger.setBreakpointByUrl` of the duplicate-staging scenario. -/
def c1Cmd1 : SetBpCommand := { id := 2, url := "a", lineNumber := 10, condition := none }

/-- Second `Debugger.setBreakpointByUrl` on the same `(path, line)`. -/
def c1Cmd2 : SetBpCommand := { id := 3, url := "a", lineNumber := 10, condition := none }

/-- Adapter response to the first sync (one verified breakpoint, id 100). -/
def c1Resp1 : List VsBreakpoint := [{ id := some 100, verified := true, line := some 11 }]

/-- Adapter response to the second sync (one verified breakpoint, id 101). -/
def c1Resp2 : List VsBreakpoint := [{ id := some 101, verified := true, line := some 11 }]

/-- State and outputs after the first breakpoint command. -/
def c1Step1 : TranslatorState × SetBreakpointsCall × List ClientResponse :=
  handleSetBreakpointByUrlCommand translatorInitialState c1Cmd1 c1Resp1

/-- State and outputs after staging a second breakpoint on the same line. -/
def c1Step2 : TranslatorState × SetBreakpointsCall × List ClientResponse :=
  handleSetBreakpointByUrlCommand c1Step1.1 c1Cmd2 c1Resp2

/-- A buffer holding a complete header terminator but no
`Content-Length: <digits>` field. -/
def c4Buffer : List Char := "X: 1\r\n\r\n".toList

/-- Two running threads (ids 1 and 2) and no active paused thread. -/
def c3State : TranslatorState :=
  updateThreadsState translatorInitialState [1, 2] ThreadState.running

/-- A `stopped` event for thread 1 with `allThreadsStopped`. -/
def c3Body : StopEventBody :=
  { threadId := some 1, reason := "breakpoint", allThreadsStopped := some true }

/-- The stopped-thread expansion of the scenario. -/
def c3Ids : List Int := stoppedThreadIdsOf c3State "node" c3Body

/-- The state after the stop event selected the active thread. -/
def c3St1 : TranslatorState := stopEventSelectActive c3State c3Ids

/-- A registry whose first (and only) thread id is `0`. -/
def c8State : TranslatorState :=
  updateThreadsState translatorInitialState [0] ThreadState.running

/-- A ledger holding one breakpoint whose id is `"5"`. -/
def c9State : TranslatorState :=
  { translatorInitialState with
      breakpoints :=
        [{ breakpointId := some "5", path := "a", lineNumber := 11, condition := ""
           hitCount := 0, resolved := true }] }

/-! ## Theorems -/

/-- The `seq` values assigned by a run of `_sendMessage` starting at any
counter value are consecutive from that value. -/
theorem sendAll_seq_map (typs : List String) :
    ∀ s, ((sendAll s typs).1.map OutMessage.seq) = List.range' s typs.length := by
  induction typs with
  | nil => intro s; simp [sendAll]
  | cons t rest ih =>
    intro s
    simp [sendAll, sendMessage, List.range'_succ, ih]

/-- C5: every message written by the transport in one session carries a
`seq` assigned by `_sendMessage` from the counter initialized to 1, so the
seq values of the messages sent are exactly `1, 2, 3, …` in sending order:
dense and strictly increasing, starting at 1. -/
theorem c5_seq_dense_from_one (typs : List String) :
    ((sendAll v8InitialSequence typs).1.map OutMessage.seq) =
      List.range' 1 typs.length :=
  sendAll_seq_map typs 1

/-- The stop-event subscriber emits at most one `Debugger.paused` message. -/
theorem stopEventMessages_paused_count (st : TranslatorState) (evs : List PausedEvent) :
    (stopEventMessages st evs).countP ClientMessage.isPaused ≤ 1 := by
  unfold stopEventMessages
  cases evs with
  | nil => simp [List.countP_cons, ClientMessage.isPaused]
  | cons e rest =>
    by_cases h : jsStrictEqOpt st.pausedThreadId (some e.stopThreadId) = true <;>
      simp [h, List.countP_cons, ClientMessage.isPaused]

/-- C2: for every adapter `stopped` event processed to completion (and also
for one interrupted by a matching `continued` event), the translator emits
at most one `Debugger.paused` message to the client, however many threads
the event expands to. -/
theorem c2_at_most_one_paused (st : TranslatorState) (adapterType : String)
    (body : StopEventBody) (interrupted : Bool)
    (frames : Int → Option Int → List CallFrame) :
    ((processStopEvent st adapterType body interrupted frames).2.countP
      ClientMessage.isPaused) ≤ 1 := by
  unfold processStopEvent
  cases interrupted with
  | true => simp
  | false => simpa using stopEventMessages_paused_count _ _

/-- C9: a `Debugger.removeBreakpoint` whose id matches no ledger record is
a silent no-op: empty success response, no `setBreakpoints` call to the
adapter, ledger unchanged. -/
theorem c9_remove_unknown_id_is_noop (st : TranslatorState) (cmdId : Nat)
    (breakpointId : String) (resp : List VsBreakpoint)
    (h : ∀ bp ∈ st.breakpoints, bp.breakpointId ≠ some breakpointId) :
    handleRemoveBreakpointCommand st cmdId breakpointId resp =
      (st, [], ClientResponse.empty cmdId) := by
  have hfind :
      st.breakpoints.find? (fun bp => bp.breakpointId == some breakpointId) = none := by
    rw [List.find?_eq_none]
    intro bp hbp
    simpa using h bp hbp
  unfold handleRemoveBreakpointCommand removeBreakpoint
  simp [hfind]

/-- Witness for the unknown-id removal no-op at a concrete ledger. -/
theorem c9_remove_unknown_id_is_noop_witness :
    (∀ bp ∈ c9State.breakpoints, bp.breakpointId ≠ some "7") ∧
    handleRemoveBreakpointCommand c9State 9 "7" [] =
      (c9State, [], ClientResponse.empty 9) :=
  ⟨by decide, c9_remove_unknown_id_is_noop c9State 9 "7" [] (by decide)⟩

/-- C10: `Debugger.evaluateOnCallFrame` and `Runtime.evaluate` always
produce a result response, never a client error response; when the adapter
request fails, the result carries `type = 'undefined'`, `wasThrown = true`
and the adapter's error message as `exceptionDetails`. -/
theorem c10_evaluate_always_result (cmdId : Nat) (body : EvaluateBody) (msg : String) :
    (evaluateOnCallFrame (.ok body) cmdId).isError = false ∧
    (evaluateOnCallFrame (.error msg) cmdId).isError = false ∧
    evaluateOnCallFrame (.error msg) cmdId =
      ClientResponse.evaluate cmdId "undefined" none none none true (some msg) :=
  ⟨rfl, rfl, rfl⟩

/-- C4 counterexample: a buffer holding a complete header terminator but no
valid `Content-Length` field makes `_handleData` wait — the decoder state is
unchanged, nothing is dispatched, and no server error is surfaced (even
under a dispatch behavior that would report an error on every body) —
contradicting the claim that the transport fails with a protocol error via
`serverErrors`. -/
theorem c4_counterexample :
    findIndexOfSub twoCrlfChars c4Buffer = some 4 ∧
    contentLengthMatch c4Buffer = none ∧
    handleData (v8InitialContentLength, c4Buffer) =
      ((v8InitialContentLength, c4Buffer), []) ∧
    serverErrorsOfDispatch (fun _ => some "protocol error")
      (handleData (v8InitialContentLength, c4Buffer)).2 = [] := by
  decide

/-- C4 amended: whenever the header terminator is present in the buffer but
no valid `Content-Length: <digits>` field matches, `_handleData` leaves the
decoder state unchanged, dispatches nothing and surfaces no server error —
the transport stalls waiting for more data rather than failing. -/
theorem c4_header_without_content_length_waits (cl : Int) (buf : List Char)
    (idx : Nat) (hcl : cl < 0)
    (hidx : findIndexOfSub twoCrlfChars buf = some idx)
    (hmatch : contentLengthMatch buf = none) :
    handleData (cl, buf) = ((cl, buf), []) ∧
    ∀ d, serverErrorsOfDispatch d (handleData (cl, buf)).2 = [] := by
  have hmain : handleData (cl, buf) = ((cl, buf), []) := by
    unfold handleData handleDataLoop
    simp [not_le.mpr hcl, hidx, hmatch]
  refine ⟨hmain, fun d => ?_⟩
  rw [hmain]
  rfl

/-- Witness for the header-without-Content-Length stall. -/
theorem c4_header_without_content_length_waits_witness :
    ((-1 : Int) < 0 ∧ findIndexOfSub twoCrlfChars c4Buffer = some 4 ∧
      contentLengthMatch c4Buffer = none) ∧
    handleData (-1, c4Buffer) = ((-1, c4Buffer), []) :=
  ⟨⟨by decide, by decide, by decide⟩,
    (c4_header_without_content_length_waits (-1) c4Buffer 4 (by decide) (by decide)
      (by decide)).1⟩

/-- C6 counterexample: `Debugger.continueToLocation` passes the client
column through unconverted (`columnNumber || 1`): a client column of 5
reaches the adapter as 5, not `5 + 1`, so not every column crossing the
boundary is converted by `x + 1`. -/
theorem c6_counterexample :
    (continueToLocationArgs
      { scriptId := "a", lineNumber := 3, columnNumber := 5, threadId := none }).column
        = 5 ∧
    ((5 : Int) = 5 + 1 → False) := by
  decide

/-- C6 amended: line numbers crossing the boundary are converted by
`client→adapter = x+1` and `adapter→client = x−1` and round-trip to the
identity — at the `setBreakpointByUrl` boundary, in stack-frame translation,
and for `continueToLocation`'s line — but `continueToLocation`'s column is
passed through unchanged except that the falsy column 0 (and an absent
column) defaults to 1. -/
theorem c6_line_conversions_roundtrip (x : Int) (frame : VsStackFrame)
    (scopes : List VsScope) (loc : ContinueLocation) :
    breakpointLineToClient (setBreakpointLineToAdapter x) = x ∧
    (translateStackFrame frame scopes).location.lineNumber = frame.line - 1 ∧
    (translateStackFrame frame scopes).location.columnNumber = frame.column - 1 ∧
    (continueToLocationArgs loc).line = loc.lineNumber + 1 ∧
    (continueToLocationArgs loc).column =
      (if loc.columnNumber == 0 then 1 else loc.columnNumber) := by
  refine ⟨?_, rfl, rfl, rfl, rfl⟩
  simp [breakpointLineToClient, setBreakpointLineToAdapter]

/-- C8 counterexample: with thread id 0 first in the registry and no active
paused thread, `Debugger.pause` sends the adapter `threadId = -1`, not the
first registry id 0 (`Array.from(keys)[0] || -1` treats the falsy id 0 as
absent). -/
theorem c8_counterexample :
    c8State.pausedThreadId = none ∧
    (c8State.threadsById.map Prod.fst).head? = some 0 ∧
    (handlePauseCommand c8State 7).2.1 = -1 ∧
    ((-1 : Int) = 0 → False) := by
  decide

/-- C8 amended: `Debugger.pause` sends the adapter a pause request whose
`threadId` is the active paused thread if one is set, otherwise the first
registry thread id when that id is nonzero (a first id of 0 falls through
to −1 under the falsy `|| -1` check), otherwise −1; and the active paused
thread is cleared before the adapter is awaited. -/
theorem c8_pause_thread_choice (st : TranslatorState) (cmdId : Nat) :
    (handlePauseCommand st cmdId).2.1 =
      (match st.pausedThreadId with
       | some t => t
       | none =>
         match (st.threadsById.map Prod.fst).head? with
         | some k => if k = 0 then -1 else k
         | none => -1) ∧
    (handlePauseCommand st cmdId).1.pausedThreadId = none ∧
    (handlePauseCommand st cmdId).2.2 = ClientResponse.empty cmdId := by
  refine ⟨?_, ?_, rfl⟩
  · unfold handlePauseCommand jsOrMinus1
    cases st.pausedThreadId with
    | some t => rfl
    | none =>
      cases (st.threadsById.map Prod.fst).head? with
      | some k => simp [beq_iff_eq]
      | none => rfl
  · unfold handlePauseCommand updatePausedThreadId
    by_cases h : st.pausedThreadId ≠ none <;> simp [h]

/-- `_updatePausedThreadId` sets `pausedThreadIdPrevious` exactly when it
was already set or a thread was active at the call. -/
theorem updatePausedThreadId_prev (st : TranslatorState) (u : Option Int) :
    ((updatePausedThreadId st u).pausedThreadIdPrevious ≠ none) ↔
      (st.pausedThreadIdPrevious ≠ none ∨ st.pausedThreadId ≠ none) := by
  unfold updatePausedThreadId
  by_cases h : st.pausedThreadId ≠ none <;> simp [h]

/-- Replaying a trace of `_updatePausedThreadId` calls: the previous-thread
slot ends non-null iff it started non-null or some call happened while a
thread was active. -/
theorem runPausedThreadUpdates_prev (updates : List (Option Int)) :
    ∀ st : TranslatorState,
      ((runPausedThreadUpdates st updates).pausedThreadIdPrevious ≠ none) ↔
        (st.pausedThreadIdPrevious ≠ none ∨ updateWhileActive st updates = true) := by
  induction updates with
  | nil => intro st; simp [runPausedThreadUpdates, updateWhileActive]
  | cons u rest ih =>
    intro st
    have hrun : runPausedThreadUpdates st (u :: rest) =
        runPausedThreadUpdates (updatePausedThreadId st u) rest := rfl
    rw [hrun, ih, updatePausedThreadId_prev]
    simp only [updateWhileActive, Bool.or_eq_true, bne_iff_ne, ne_eq]
    tauto

/-- C7 counterexample: two `Debugger.selectThread` commands for the same
thread 1 (equivalently, two `_updatePausedThreadId(1)` calls) leave
`pausedThreadIdPrevious = 1` although only one distinct thread was ever
active — so `pausedThreadIdPrevious` non-null does not require two distinct
active threads. -/
theorem c7_counterexample :
    (runPausedThreadUpdates translatorInitialState [some 1, some 1]).pausedThreadIdPrevious
        = some 1 ∧
    distinctActives [some 1, some 1] = [1] ∧
    (2 ≤ (distinctActives [some 1, some 1]).length → False) ∧
    (handleSelectThreadCommand
        (handleSelectThreadCommand translatorInitialState 5 1).1 6 1).1.pausedThreadIdPrevious
      = some 1 := by
  decide

/-- C7 amended: starting from the session's initial state,
`pausedThreadIdPrevious` is non-null iff some `_updatePausedThreadId` call
(a thread selection, a stop-event selection, or a clearing on pause,
continue or thread exit) occurred while a thread was already active — not
iff two distinct threads have been active. -/
theorem c7_prev_nonnull_iff_update_while_active (updates : List (Option Int)) :
    ((runPausedThreadUpdates translatorInitialState updates).pausedThreadIdPrevious ≠ none) ↔
      updateWhileActive translatorInitialState updates = true := by
  rw [runPausedThreadUpdates_prev]
  simp [translatorInitialState]

/-- C3 counterexample: threads 1 and 2 are running, a `stopped` event for
thread 1 with `allThreadsStopped` arrives, thread 1 becomes the active
paused thread; thread 2 is a stopped thread distinct from the active one,
yet its stack is fetched with no levels argument — the request carries no
paging options even though `supportsDelayedStackTraceLoading` is true —
because the source compares the active thread with the event's `threadId`,
not with the thread being fetched (levels 1 would have produced paging
options `(1, 0)`). -/
theorem c3_counterexample :
    c3Ids = [1, 2] ∧
    c3St1.pausedThreadId = some 1 ∧
    ((2 : Int) = 1 → False) ∧
    stopFrameFetchLevels c3St1 c3Body.threadId 2 = none ∧
    stopFetchOptions true c3St1 c3Body.threadId 2 = none ∧
    stackTraceOptions true (some 1) = some (1, 0) := by
  decide

/-- C3 amended: the levels choice for a stop event is uniform across all
stopped threads and depends only on whether the active paused thread equals
the event's `threadId`: when it does, every stopped thread (the others
included) is fetched unbounded; when it does not, every stopped thread (the
active one included) is fetched with `levels = 1` if the adapter supports
`supportsDelayedStackTraceLoading`, unbounded otherwise. -/
theorem c3_levels_uniform_per_event (st : TranslatorState) (caps : Bool)
    (tid : Option Int) (i j : Int) :
    stopFrameFetchLevels st tid i = stopFrameFetchLevels st tid j ∧
    stopFetchOptions caps st tid i =
      (if jsStrictEqOpt st.pausedThreadId tid then none
       else if caps then some (1, 0) else none) := by
  refine ⟨rfl, ?_⟩
  unfold stopFetchOptions stopFrameFetchLevels stackTraceOptions
  by_cases h : jsStrictEqOpt st.pausedThreadId tid = true <;> cases caps <;> simp [h]

/-- C1 counterexample: staging a second breakpoint on a `(path, line)` that
already has a ledger record leaves two records for that pair in
`_breakpoints` (both syncs succeed and every client response is a success
response), contradicting the at-most-one-record invariant. -/
theorem c1_counterexample :
    countBpAt c1Step1.1.breakpoints "a" 11 = 1 ∧
    countBpAt c1Step2.1.breakpoints "a" 11 = 2 ∧
    (c1Step1.2.2.any ClientResponse.isError) = false ∧
    (c1Step2.2.2.any ClientResponse.isError) = false := by
  decide

/-- C1 amended: staging a breakpoint always appends a fresh record to the
ledger, so a `(path, line)` pair that already has a record ends up with one
more record for that pair; deduplication happens only in the sync list sent
to the adapter, where the newly staged line appears exactly once (the new
record supersedes the older records on that line, and records on other
lines are preserved as copies). -/
theorem c1_stage_appends_and_dedups_sync (bps : List TranslatorBreakpoint)
    (path : String) (cmd : SetBpCommand) :
    countBpAt (stageGroup bps path [cmd]).1 path (cmd.lineNumber + 1) =
      countBpAt bps path (cmd.lineNumber + 1) + 1 ∧
    ((stageGroup bps path [cmd]).2.1.map (fun bp => bp.lineNumber)).count
        (cmd.lineNumber + 1) = 1 := by
  constructor
  · unfold stageGroup countBpAt setBreakpointLineToAdapter
    simp [List.filter_append]
  · unfold stageGroup setBreakpointLineToAdapter
    simp only [List.map_cons, List.map_nil, List.map_append, List.count_append,
      List.count_cons, List.count_nil, List.singleton_append]
    have hzero :
        (((getBreakpointsForFilePath bps path).filter (fun bp =>
            !(([cmd.lineNumber + 1] : List Int).contains bp.lineNumber))).map
          (fun bp => bp.lineNumber)).count (cmd.lineNumber + 1) = 0 := by
      rw [List.count_eq_zero]
      intro hmem
      rcases List.mem_map.mp hmem with ⟨bp, hbp, hline⟩
      have hfilter := (List.mem_filter.mp hbp).2
      simp only [List.contains_cons, List.contains_nil, Bool.or_false, Bool.not_eq_true',
        beq_eq_false_iff_ne, ne_eq] at hfilter
      exact hfilter (by rw [hline])
    simpa using hzero

end Nuclide
